import Mathlib

/-!
Verification development for the realtime elderly-care voice system.

The definitions below are a shallow embedding of the Python sources:
* `src/modules/audio_handler.py` — the turn/response state machine of
  `RealtimeAudioHandler` (`_generate_response`, `_generate_fallback_response`,
  `_cancel_active_response`, `_handle_api_response`, `_play_audio_delta`);
* `src/modules/safety_checker.py` — the scripted safety-conversation loop and
  its keyword classification (`_conduct_safety_conversation`,
  `_detect_emergency`, `_contains_negative_words`, `_determine_safety_status`);
* `src/main.py` — the finalization control flow of `RealtimeCareApp.run` and
  `RealtimeCareApp._finalize_if_needed`.

Modelling conventions: wall-clock instants and durations are rationals
(the Python code uses `time.time()` floats; all constants involved are
exact — 1.0, 2.0, 3.0 seconds). Network sends, audio renders, sleeps and
callback invocations are recorded as explicit `Action` values together with
the model time at which they happen; `asyncio.sleep d` advances the model
clock by `d`. Base64 transport encoding is abstracted away: an audio delta
payload is modelled as the already-decoded byte string, so decoding is the
identity on the model payload.
-/

namespace RealtimeCare

/-- Wall-clock time (seconds), modelled as an exact rational. -/
abbrev Time := ℚ

/-- Mutable turn/response fields of `RealtimeAudioHandler.__init__`
(`audio_handler.py` lines 52-59).  Connection/stream handles and the
static session configuration are omitted: no claim mentions them. -/
structure HandlerState where
  response_in_progress : Bool
  awaiting_audio_delay : Bool
  response_cooldown_until : Time
  current_response_id : Option String
  suppress_audio_output : Bool
  last_speech_time : Time
deriving DecidableEq, Repr

/-- `speak_delay_seconds = 1.0` (`audio_handler.py` line 56). -/
def speak_delay_seconds : Time := 1

/-- Field values set in `RealtimeAudioHandler.__init__`. -/
def initHandlerState : HandlerState :=
  { response_in_progress := false
    awaiting_audio_delay := false
    response_cooldown_until := 0
    current_response_id := none
    suppress_audio_output := false
    last_speech_time := 0 }

/-- Outbound commands sent over the websocket that the claims mention.
`responseCreate` carries the `instructions` string of the
`response.create` payload; `responseCancel` carries the `response_id`. -/
inductive Command
  | responseCreate (instructions : String)
  | responseCancel (response_id : String)
deriving DecidableEq, Repr

/-- Instruction text built by `_generate_response` (lines 233-237). -/
def response_instructions (user_text : String) : String :=
  "次の内容に日本語で1〜2文、ゆっくり落ち着いた調子で返答してください。"
    ++ "重複した質問は避け、共感を示しつつ会話を続けてください。"
    ++ "内容: " ++ user_text

/-- Instruction text of `_generate_fallback_response` (line 293). -/
def fallback_instructions : String :=
  "ユーザーが話しましたが、音声が聞き取れませんでした。"
    ++ "「すみません、もう一度おっしゃっていただけますか？」と優しく聞き返してください。"

/-- Embeds `RealtimeAudioHandler._generate_response` (lines 223-251).
Input: current state and the value of `time.time()` at the call.  Output:
the state after the call (the method mutates no field), the duration the
caller is suspended by `asyncio.sleep`, and — when the call is not
rejected — the send time and content of the `response.create` command.
A rejected call (line 226: `if self.response_in_progress`) returns with
no sleep and no send. -/
def generate_response (s : HandlerState) (now : Time) (user_text : String) :
    HandlerState × Time × Option (Time × Command) :=
  if s.response_in_progress then
    (s, 0, none)
  else
    let wait : Time :=
      if now < s.response_cooldown_until then s.response_cooldown_until - now else 0
    (s, wait, some (now + wait, Command.responseCreate (response_instructions user_text)))

/-- Embeds `RealtimeAudioHandler._generate_fallback_response` (lines
283-300): rejected when `response_in_progress`, otherwise sends a fixed
re-prompt `response.create`; no field is mutated either way. -/
def generate_fallback_response (s : HandlerState) :
    HandlerState × Option Command :=
  if s.response_in_progress then (s, none)
  else (s, some (Command.responseCreate fallback_instructions))

/-- Python truthiness of `self.current_response_id` (an `Optional[str]`):
falsy when `None` or the empty string. -/
def idTruthy : Option String → Bool
  | none => false
  | some i => !i.isEmpty

/-- Embeds `RealtimeAudioHandler._cancel_active_response` (lines 389-416).
Guard (line 391): return when neither `response_in_progress` nor a truthy
`current_response_id`.  Otherwise: set `suppress_audio_output`, send
`response.cancel` when an id is known, clear `response_in_progress` and
`awaiting_audio_delay`.  Note the method does NOT clear
`current_response_id` and does not touch `response_cooldown_until`. -/
def cancel_active_response (s : HandlerState) :
    HandlerState × Option Command :=
  if !s.response_in_progress && !idTruthy s.current_response_id then
    (s, none)
  else
    let cmd : Option Command :=
      match s.current_response_id with
      | some i => if i.isEmpty then none else some (Command.responseCancel i)
      | none => none
    ({ s with suppress_audio_output := true
              response_in_progress := false
              awaiting_audio_delay := false }, cmd)

/-- Inbound websocket events dispatched by `_handle_api_response`
(lines 302-387), keyed by their `type` field. -/
inductive ApiEvent
  | sessionCreated
  | speechStarted
  | speechStopped
  | transcriptionCompleted (transcript : String)
  | transcriptionFailed
  | audioDelta (delta : String)
  | audioTranscriptDelta (text : String)
  | responseCreated (id : Option String)
  | responseDone
  | apiError (msg : String)
deriving DecidableEq, Repr

/-- Observable effects of processing an event: suspensions, audio writes
to the output stream, websocket sends, and invocations of the callbacks
registered via `set_callbacks`. -/
inductive Action
  | sleepFor (d : Time)
  | render (bytes : String)
  | sendCmd (c : Command)
  | notifyTranscription (t : String)
  | notifyResponseEnd
  | notifyError (m : String)
deriving DecidableEq, Repr

/-- Embeds `RealtimeAudioHandler._play_audio_delta` (lines 418-436).
The payload is decoded (modelled as identity), then: if
`awaiting_audio_delay`, sleep `speak_delay_seconds` and clear the flag;
then, if `suppress_audio_output`, return without rendering (the decoded
data is discarded, stored nowhere); otherwise write the data to the
output stream.  Returns the updated state, the clock after any sleep,
and the timestamped effects. -/
def play_audio_delta (s : HandlerState) (clock : Time) (delta : String) :
    HandlerState × Time × List (Time × Action) :=
  let sleepActs : List (Time × Action) :=
    if s.awaiting_audio_delay then [(clock, Action.sleepFor speak_delay_seconds)] else []
  let clock1 : Time :=
    if s.awaiting_audio_delay then clock + speak_delay_seconds else clock
  let s1 : HandlerState := { s with awaiting_audio_delay := false }
  if s.suppress_audio_output then
    (s1, clock1, sleepActs)
  else
    (s1, clock1, sleepActs ++ [(clock1, Action.render delta)])

/-- Embeds the dispatch of `RealtimeAudioHandler._handle_api_response`
(lines 302-387) at a given model time.  Branch by branch:
* `session.created`, `speech_stopped`, `audio_transcript.delta`: log only;
* `speech_started` (lines 313-322): when `response_in_progress`, log and
  return before touching any field; otherwise record `last_speech_time`;
* `transcription.completed` (lines 327-334): invoke `on_transcription`
  for a non-empty transcript (the callback is always registered by both
  entry points);
* `transcription.failed` (lines 336-340): run `_generate_fallback_response`;
* `audio.delta` (lines 342-347): for a truthy payload run `_play_audio_delta`;
* `response.created` (lines 355-360): set `response_in_progress` and
  `awaiting_audio_delay`, clear `suppress_audio_output`, record the id;
* `response.done` (lines 362-375): unconditionally clear
  `response_in_progress`, set `response_cooldown_until := now + 2.0`,
  clear the id and `suppress_audio_output`, invoke `on_response_end`
  (the `suppress_audio_output` test on line 364 only picks the log text);
* `error` (lines 377-381): invoke `on_error`. -/
def handle_api_response (s : HandlerState) (clock : Time) (e : ApiEvent) :
    HandlerState × Time × List (Time × Action) :=
  match e with
  | ApiEvent.sessionCreated => (s, clock, [])
  | ApiEvent.speechStarted =>
      if s.response_in_progress then (s, clock, [])
      else ({ s with last_speech_time := clock }, clock, [])
  | ApiEvent.speechStopped => (s, clock, [])
  | ApiEvent.transcriptionCompleted t =>
      if t.isEmpty then (s, clock, [])
      else (s, clock, [(clock, Action.notifyTranscription t)])
  | ApiEvent.transcriptionFailed =>
      let r := generate_fallback_response s
      (r.1, clock, match r.2 with
        | some c => [(clock, Action.sendCmd c)]
        | none => [])
  | ApiEvent.audioDelta d =>
      if d.isEmpty then (s, clock, [])
      else play_audio_delta s clock d
  | ApiEvent.audioTranscriptDelta _ => (s, clock, [])
  | ApiEvent.responseCreated id =>
      ({ s with response_in_progress := true
                awaiting_audio_delay := true
                suppress_audio_output := false
                current_response_id := id }, clock, [])
  | ApiEvent.responseDone =>
      ({ s with response_in_progress := false
                response_cooldown_until := clock + 2
                current_response_id := none
                suppress_audio_output := false }, clock,
        [(clock, Action.notifyResponseEnd)])
  | ApiEvent.apiError m => (s, clock, [(clock, Action.notifyError m)])

/-- An inbound event together with its arrival time on the websocket. -/
structure TimedEvent where
  arrival : Time
  ev : ApiEvent
deriving DecidableEq, Repr

/-- Handler state plus the model clock of the receive loop
(`stream_audio_conversation`, lines 140-148: events are processed
sequentially, one `_handle_api_response` at a time). -/
structure Machine where
  hs : HandlerState
  clock : Time
deriving DecidableEq, Repr

/-- Process one inbound event: the receive loop picks it up no earlier
than its arrival and no earlier than the end of the previous handler run
(handlers are awaited sequentially), then dispatches it. -/
def stepM (m : Machine) (te : TimedEvent) : Machine × List (Time × Action) :=
  let clock0 := max m.clock te.arrival
  let r := handle_api_response m.hs clock0 te.ev
  ({ hs := r.1, clock := r.2.1 }, r.2.2)

/-- Run the receive loop over a finite event sequence, collecting all
timestamped effects in order. -/
def runM : Machine → List TimedEvent → Machine × List (Time × Action)
  | m, [] => (m, [])
  | m, te :: rest =>
      let r1 := stepM m te
      let r2 := runM r1.1 rest
      (r2.1, r1.2 ++ r2.2)

/-- One entry of the step-by-step trace of the receive loop: the machine
state before the event, the event, and the effects its handler emitted. -/
structure StepRecord where
  pre : Machine
  event : TimedEvent
  acts : List (Time × Action)
deriving DecidableEq, Repr

/-- Step-by-step trace of the receive loop over an event sequence. -/
def traceM : Machine → List TimedEvent → List StepRecord
  | _, [] => []
  | m, te :: rest =>
      let r1 := stepM m te
      { pre := m, event := te, acts := r1.2 } :: traceM r1.1 rest

/-! Embedding of `src/modules/safety_checker.py`: keyword scans and the
scripted conversation loop. -/

/-- Python string containment `needle in haystack` restricted to the
start: `listStartsWith n h` holds when `n` is an initial segment of `h`. -/
def listStartsWith : List Char → List Char → Bool
  | [], _ => true
  | _ :: _, [] => false
  | a :: as, b :: bs => a == b && listStartsWith as bs

/-- Contiguous-segment containment on character lists. -/
def listContainsSeg (needle : List Char) : List Char → Bool
  | [] => needle.isEmpty
  | b :: bs => listStartsWith needle (b :: bs) || listContainsSeg needle bs

/-- Python substring test `needle in haystack`. -/
def strContains (haystack needle : String) : Bool :=
  listContainsSeg needle.data haystack.data

/-- `SafetyStatus` enum of `safety_checker.py` (lines 21-26). -/
inductive SafetyStatus
  | UNKNOWN
  | SAFE
  | NEEDS_ATTENTION
  | EMERGENCY
deriving DecidableEq, Repr

/-- `emergency_keywords` of `SafetyChecker._detect_emergency`
(lines 241-245). -/
def emergency_keywords : List String :=
  ["助けて", "痛い", "苦しい", "息ができない",
   "倒れ", "転んだ", "動けない", "意識",
   "救急車", "病院", "緊急"]

/-- `negative_words` of `SafetyChecker._contains_negative_words`
(lines 232-236). -/
def negative_words : List String :=
  ["痛い", "痛み", "具合悪い", "調子悪い", "気分悪い",
   "しんどい", "疲れた", "眠れない", "食欲ない",
   "心配", "不安", "寂しい", "悲しい"]

/-- Python list slice `l[-n:]`: the `n` most recent entries (the whole
list when it is shorter than `n`). -/
def lastN (n : Nat) (l : List String) : List String :=
  l.drop (l.length - n)

/-- Embeds `SafetyChecker._contains_negative_words` (lines 230-237). -/
def contains_negative_words (text : String) : Bool :=
  negative_words.any (fun w => strContains text w)

/-- Embeds `SafetyChecker._detect_emergency` (lines 239-248): join the
last three user responses with spaces and scan for any emergency
keyword. -/
def detect_emergency (user_responses : List String) : Bool :=
  let recent := String.intercalate " " (lastN 3 user_responses)
  emergency_keywords.any (fun kw => strContains recent kw)

/-- Embeds `SafetyChecker._determine_safety_status` (lines 290-310):
`UNKNOWN` on an empty transcript; `EMERGENCY` when the emergency scan
fires; otherwise `NEEDS_ATTENTION` when at least one response contains a
negative word (the `>= 2` and `== 1` branches coincide), else `SAFE`. -/
def determine_safety_status (user_responses : List String) : SafetyStatus :=
  if user_responses.isEmpty then SafetyStatus.UNKNOWN
  else if detect_emergency user_responses then SafetyStatus.EMERGENCY
  else
    let negative_count := (user_responses.filter contains_negative_words).length
    if 2 ≤ negative_count then SafetyStatus.NEEDS_ATTENTION
    else if negative_count = 1 then SafetyStatus.NEEDS_ATTENTION
    else SafetyStatus.SAFE

/-- Embeds the step loop of `SafetyChecker._conduct_safety_conversation`
(lines 137-153).  The environment is abstracted as the list of user
responses transcribed during each scripted step (`stepInputs`); `acc` is
`self.user_responses` so far.  After each step the loop runs
`_detect_emergency` on the accumulated responses and aborts on a match
(lines 147-149).  Returns the final accumulated responses and the number
of steps that were executed. -/
def run_steps : List (List String) → List String → List String × Nat
  | [], acc => (acc, 0)
  | inp :: rest, acc =>
      let acc1 := acc ++ inp
      if detect_emergency acc1 then (acc1, 1)
      else
        let r := run_steps rest acc1
        (r.1, r.2 + 1)

/-- The five scripted steps of `_conduct_safety_conversation`
(lines 129-135): greeting, health check, mood check, daily life,
closing. -/
def conversation_step_count : Nat := 5

/-! Embedding of `src/main.py`: finalization control flow of
`RealtimeCareApp`. -/

/-- How the conversation phase of `RealtimeCareApp.run` ended: the
`while` loop (lines 80-87) exits either because
`stream_audio_conversation` returned normally (connection closed or an
end keyword stopped the session) or because `self.running` was cleared. -/
inductive ConvOutcome
  | endedNormally
  | connectionDropped
deriving DecidableEq, Repr

/-- Embeds `RealtimeCareApp._finalize_if_needed` (lines 121-146):
returns `true` exactly when the classification / persistence /
notification pipeline runs, i.e. unless no user message was recorded and
at most one AI message (the greeting) exists. -/
def finalize_if_needed (user_messages ai_messages : List String) : Bool :=
  !(user_messages.isEmpty && decide (ai_messages.length ≤ 1))

/-- Embeds the control flow of `RealtimeCareApp.run` (lines 59-90).
`connect_ok` is the result of `start_realtime_session`; on failure the
method returns at line 66 BEFORE the `try/finally` block, so no
finalization happens.  On success the greeting is appended to
`ai_messages`, the conversation loop runs (its outcome does not matter
for the `finally` clause), and `_finalize_if_needed` always runs in the
`finally` clause.  Returns `(finalize_attempted, pipeline_ran)`. -/
def runApp (connect_ok : Bool) (outcome : ConvOutcome)
    (greeting : String) (user_messages ai_conv_messages : List String) :
    Bool × Bool :=
  if !connect_ok then (false, false)
  else
    let ai_messages := greeting :: ai_conv_messages
    match outcome with
    | ConvOutcome.endedNormally =>
        (true, finalize_if_needed user_messages ai_messages)
    | ConvOutcome.connectionDropped =>
        (true, finalize_if_needed user_messages ai_messages)

/-- A handler state in the middle of a streaming turn (as set up by a
`response.created` event with id `resp_1` and an earlier done at time 3),
used to exercise cancellation. -/
def activeTurnState : HandlerState :=
  { response_in_progress := true
    awaiting_audio_delay := true
    response_cooldown_until := 5
    current_response_id := some "resp_1"
    suppress_audio_output := false
    last_speech_time := 0 }

/-! Theorems. -/

/-- C1 (counterexample): start from an active turn, cancel it (the
suppressed flag is set and the state is locally back to not-in-progress),
then let the remote `response.done` for the canceled turn arrive at time
10.  The done handler is NOT a no-op: it moves `response_cooldown_until`
from 5 to 12 and changes further fields, contradicting the claim that a
late `response.done` for a canceled turn leaves the state machine
untouched. -/
theorem c1_late_done_not_noop :
    (handle_api_response (cancel_active_response activeTurnState).1 10
        ApiEvent.responseDone).1.response_cooldown_until ≠
      (cancel_active_response activeTurnState).1.response_cooldown_until ∧
    (handle_api_response (cancel_active_response activeTurnState).1 10
        ApiEvent.responseDone).1 ≠
      (cancel_active_response activeTurnState).1 := by
  have h12 : ((10 : Time) + 2) ≠ 5 := by norm_num
  constructor
  · simpa [handle_api_response, cancel_active_response, activeTurnState, idTruthy] using h12
  · intro h
    have := congrArg HandlerState.response_cooldown_until h
    simp [handle_api_response, cancel_active_response, activeTurnState, idTruthy] at this
    exact h12 this

/-- C1 (amended): after `cancelActive` has closed a turn, a late
`response.done` for that turn still performs the full done handling
rather than being a no-op: it sets the cooldown window to its processing
time plus 2.0 s, clears the stored response id (which the cancel had
left in place) and clears the suppressed flag; only the log message
distinguishes the canceled case. -/
theorem c1_late_done_runs_full_done_handling (s : HandlerState) (now : Time)
    (h : s.response_in_progress = true) :
    (cancel_active_response s).1.suppress_audio_output = true ∧
    (cancel_active_response s).1.current_response_id = s.current_response_id ∧
    (handle_api_response (cancel_active_response s).1 now ApiEvent.responseDone).1 =
      { response_in_progress := false
        awaiting_audio_delay := false
        response_cooldown_until := now + 2
        current_response_id := none
        suppress_audio_output := false
        last_speech_time := s.last_speech_time } := by
  simp [cancel_active_response, handle_api_response, h]

/-- Witness for `c1_late_done_runs_full_done_handling` at
`activeTurnState` and time 10. -/
theorem c1_witness :
    activeTurnState.response_in_progress = true ∧
    ((cancel_active_response activeTurnState).1.suppress_audio_output = true ∧
     (cancel_active_response activeTurnState).1.current_response_id =
       activeTurnState.current_response_id ∧
     (handle_api_response (cancel_active_response activeTurnState).1 10
         ApiEvent.responseDone).1 =
       { response_in_progress := false
         awaiting_audio_delay := false
         response_cooldown_until := (10 : Time) + 2
         current_response_id := none
         suppress_audio_output := false
         last_speech_time := activeTurnState.last_speech_time }) :=
  ⟨rfl, c1_late_done_runs_full_done_handling activeTurnState 10 rfl⟩

/-- C2 (counterexample): two `_generate_response` calls at times 0 and 0
(hence within 100 ms) in the initial idle state with the cooldown window
already passed.  The first call sends, but it does NOT transition the
local state out of idle (`response_in_progress` stays `false` — only the
remote `response.created` event sets it), so the second call is NOT
rejected: it sends a second `response.create` command. -/
theorem c2_second_call_not_rejected :
    (generate_response initHandlerState 0 "こんにちは").2.2.isSome = true ∧
    (generate_response initHandlerState 0 "こんにちは").1.response_in_progress = false ∧
    (generate_response (generate_response initHandlerState 0 "こんにちは").1 0
        "témoin").2.2.isSome = true := by
  refine ⟨?_, ?_, ?_⟩ <;> simp [generate_response, initHandlerState]

/-- C2 (amended): with the state idle and the cooldown window passed,
the first call sends immediately (no suspension) but leaves the local
state unchanged — still idle; a second call made before any
`response.created` event has been processed therefore also sends; the
second call is rejected only once the remote `response.created` event
has set `response_in_progress`. -/
theorem c2_rejection_needs_response_created
    (s : HandlerState) (t1 t2 : Time) (u1 u2 : String) (id : Option String)
    (hidle : s.response_in_progress = false)
    (hcool : s.response_cooldown_until ≤ t1) :
    generate_response s t1 u1 =
      (s, 0, some (t1, Command.responseCreate (response_instructions u1))) ∧
    (generate_response (generate_response s t1 u1).1 t2 u2).2.2.isSome = true ∧
    generate_response
        (handle_api_response (generate_response s t1 u1).1 t1
          (ApiEvent.responseCreated id)).1 t2 u2 =
      ((handle_api_response (generate_response s t1 u1).1 t1
          (ApiEvent.responseCreated id)).1, 0, none) := by
  have hnl : ¬ (t1 < s.response_cooldown_until) := not_lt.mpr hcool
  refine ⟨?_, ?_, ?_⟩ <;>
    simp [generate_response, handle_api_response, hidle, hnl]

/-- Witness for `c2_rejection_needs_response_created` in the initial
state with both calls at time 0. -/
theorem c2_witness :
    (initHandlerState.response_in_progress = false ∧
     initHandlerState.response_cooldown_until ≤ 0) ∧
    (generate_response initHandlerState 0 "こんにちは" =
      (initHandlerState, 0,
        some (0, Command.responseCreate (response_instructions "こんにちは"))) ∧
     (generate_response (generate_response initHandlerState 0 "こんにちは").1 0
        "témoin").2.2.isSome = true ∧
     generate_response
        (handle_api_response (generate_response initHandlerState 0 "こんにちは").1 0
          (ApiEvent.responseCreated (some "resp_1"))).1 0 "témoin" =
      ((handle_api_response (generate_response initHandlerState 0 "こんにちは").1 0
          (ApiEvent.responseCreated (some "resp_1"))).1, 0, none)) :=
  ⟨⟨rfl, le_refl 0⟩,
   c2_rejection_needs_response_created initHandlerState 0 0 "こんにちは" "témoin"
     (some "resp_1") rfl (le_refl 0)⟩

/-- C4: a `_generate_response` call at time `T` strictly before the
cooldown window (in the idle state, where the call is not rejected)
suspends the caller for exactly `response_cooldown_until - T` and sends
the `response.create` command exactly at the cooldown timestamp — hence
no earlier than it. -/
theorem c4_cooldown_wait_exact (s : HandlerState) (T : Time) (u : String)
    (hidle : s.response_in_progress = false)
    (hbefore : T < s.response_cooldown_until) :
    (generate_response s T u).2.1 = s.response_cooldown_until - T ∧
    (generate_response s T u).2.2 =
      some (s.response_cooldown_until,
        Command.responseCreate (response_instructions u)) := by
  refine ⟨?_, ?_⟩ <;> simp [generate_response, hidle, hbefore]

/-- Witness for `c4_cooldown_wait_exact`: cooldown window 7, call at
time 3 — suspension 4, send at 7. -/
theorem c4_witness :
    (({ initHandlerState with response_cooldown_until := 7 } :
        HandlerState).response_in_progress = false ∧
     (3 : Time) < ({ initHandlerState with response_cooldown_until := 7 } :
        HandlerState).response_cooldown_until) ∧
    ((generate_response { initHandlerState with response_cooldown_until := 7 } 3
        "こんにちは").2.1 =
      ({ initHandlerState with response_cooldown_until := 7 } :
        HandlerState).response_cooldown_until - 3 ∧
     (generate_response { initHandlerState with response_cooldown_until := 7 } 3
        "こんにちは").2.2 =
      some (({ initHandlerState with response_cooldown_until := 7 } :
          HandlerState).response_cooldown_until,
        Command.responseCreate (response_instructions "こんにちは"))) :=
  ⟨⟨rfl, by norm_num [initHandlerState]⟩,
   c4_cooldown_wait_exact _ 3 "こんにちは" rfl (by norm_num [initHandlerState])⟩

/-- C5: while a response turn is in progress, both `_generate_response`
and `_generate_fallback_response` are rejected: each returns with the
state unchanged, no suspension and no transport command. -/
theorem c5_rejected_while_responding (s : HandlerState) (now : Time) (u : String)
    (h : s.response_in_progress = true) :
    generate_response s now u = (s, 0, none) ∧
    generate_fallback_response s = (s, none) := by
  refine ⟨?_, ?_⟩ <;> simp [generate_response, generate_fallback_response, h]

/-- Witness for `c5_rejected_while_responding` at `activeTurnState`. -/
theorem c5_witness :
    activeTurnState.response_in_progress = true ∧
    (generate_response activeTurnState 9 "こんにちは" = (activeTurnState, 0, none) ∧
     generate_fallback_response activeTurnState = (activeTurnState, none)) :=
  ⟨rfl, c5_rejected_while_responding activeTurnState 9 "こんにちは" rfl⟩

/-- C7: a `speech_started` event arriving while a response turn is in
progress is handled by logging only: the handler returns the state with
every field unchanged (including `last_speech_time`), emits no effect,
and in particular cancels nothing. -/
theorem c7_speech_started_leaves_active_turn (s : HandlerState) (clock : Time)
    (h : s.response_in_progress = true) :
    handle_api_response s clock ApiEvent.speechStarted = (s, clock, []) := by
  simp [handle_api_response, h]

/-- Witness for `c7_speech_started_leaves_active_turn` at
`activeTurnState`. -/
theorem c7_witness :
    activeTurnState.response_in_progress = true ∧
    handle_api_response activeTurnState 6 ApiEvent.speechStarted =
      (activeTurnState, 6, []) :=
  ⟨rfl, c7_speech_started_leaves_active_turn activeTurnState 6 rfl⟩

/-- C9 (counterexample): two concrete runs refute the claim that
finalization is always attempted on fatal termination.  When the
transport fails to establish, `run` returns before its `try/finally`
block (line 66 of `main.py`), so finalization is not even attempted —
here despite a non-empty pending transcript.  And when the connection is
established but then drops with nothing recorded beyond the greeting,
`_finalize_if_needed` skips the whole pipeline instead of running it
over the empty transcript. -/
theorem c9_fatal_termination_skips_finalization :
    runApp false ConvOutcome.connectionDropped "こんにちは" ["助けて"] [] =
      (false, false) ∧
    runApp true ConvOutcome.connectionDropped "こんにちは" [] [] =
      (true, false) := by
  refine ⟨?_, ?_⟩ <;> rfl

/-- C9 (amended): if the realtime session was established, finalization
runs in the `finally` clause however the conversation phase ends
(normally or by a dropped connection), and the classification /
persistence / notification pipeline actually executes exactly when the
transcript is non-trivial — at least one user message, or an AI message
beyond the initial greeting.  If the transport fails to establish, `run`
returns without attempting finalization. -/
theorem c9_finalization_when_connected (outcome : ConvOutcome)
    (g : String) (user ai : List String) :
    (runApp true outcome g user ai).1 = true ∧
    ((runApp true outcome g user ai).2 = true ↔ (user ≠ [] ∨ ai ≠ [])) ∧
    (runApp false outcome g user ai).1 = false := by
  cases outcome <;>
    simp [runApp, finalize_if_needed, List.isEmpty_iff]

/-- C10 helper: taking the three most recent entries is idempotent. -/
theorem lastN_three_idem (l : List String) :
    lastN 3 (lastN 3 l) = lastN 3 l := by
  unfold lastN
  rw [List.drop_drop, List.length_drop]
  congr 1
  omega

/-- C10: the emergency scan of `safety_checker.py` reads only the three
most recent user responses, so when no emergency keyword occurs in the
join of those three, the detector is off and finalization cannot
classify the conversation as `EMERGENCY` — whatever keywords occur in
older responses. -/
theorem c10_emergency_scan_last3_only (rs : List String)
    (h : detect_emergency (lastN 3 rs) = false) :
    detect_emergency rs = false ∧
    determine_safety_status rs ≠ SafetyStatus.EMERGENCY := by
  have hdet : detect_emergency rs = false := by
    have : detect_emergency rs = detect_emergency (lastN 3 rs) := by
      unfold detect_emergency
      rw [lastN_three_idem]
    rw [this, h]
  refine ⟨hdet, ?_⟩
  simp only [determine_safety_status, hdet]
  split_ifs <;> simp_all

/-- Witness for `c10_emergency_scan_last3_only`: the emergency keyword
「助けて」 sits four utterances back, outside the three-response scan
window, and the conversation is not classified `EMERGENCY`. -/
theorem c10_witness :
    detect_emergency (lastN 3 ["助けて", "はい", "はい", "はい"]) = false ∧
    (detect_emergency ["助けて", "はい", "はい", "はい"] = false ∧
     determine_safety_status ["助けて", "はい", "はい", "はい"] ≠
       SafetyStatus.EMERGENCY) :=
  ⟨by decide, c10_emergency_scan_last3_only _ (by decide)⟩

/-- C8 helper: the detector never fires on an empty transcript. -/
theorem detect_emergency_ne_nil {l : List String}
    (h : detect_emergency l = true) : l ≠ [] := by
  intro he
  subst he
  exact absurd h (by decide)

/-- C8 helper: if the emergency check fires on the responses accumulated
through some step, the loop stops by that step with the detector firing
on the final transcript. -/
theorem run_steps_abort (inputs : List (List String)) (acc : List String)
    (k : Nat) (hk : k < inputs.length)
    (hfire : detect_emergency (acc ++ (inputs.take (k + 1)).flatten) = true) :
    detect_emergency (run_steps inputs acc).1 = true ∧
    (run_steps inputs acc).2 ≤ k + 1 := by
  induction inputs generalizing acc k with
  | nil => simp at hk
  | cons inp rest ih =>
    by_cases hd : detect_emergency (acc ++ inp) = true
    · constructor <;> simp [run_steps, hd]
    · cases k with
      | zero =>
        rw [List.take_succ_cons, List.take_zero, List.flatten_cons,
          List.flatten_nil, List.append_nil] at hfire
        exact absurd hfire hd
      | succ k' =>
        have hk' : k' < rest.length := by simpa using hk
        have hfire' :
            detect_emergency ((acc ++ inp) ++ (rest.take (k' + 1)).flatten) = true := by
          rw [List.take_succ_cons, List.flatten_cons, ← List.append_assoc] at hfire
          exact hfire
        obtain ⟨h1, h2⟩ := ih (acc ++ inp) k' hk' hfire'
        constructor <;> simp [run_steps, hd, h1]
        omega

/-- C8: in the scripted safety conversation, if after some mid-sequence
step the emergency scan over the accumulated user responses fires, the
step loop aborts before executing all five scripted steps, and the
finalized safety status is `EMERGENCY`. -/
theorem c8_emergency_aborts_script (inputs : List (List String)) (k : Nat)
    (hcount : inputs.length = conversation_step_count)
    (hmid : k + 1 < conversation_step_count)
    (hfire : detect_emergency ((inputs.take (k + 1)).flatten) = true) :
    (run_steps inputs []).2 < conversation_step_count ∧
    determine_safety_status (run_steps inputs []).1 = SafetyStatus.EMERGENCY := by
  have hk : k < inputs.length := by omega
  obtain ⟨h1, h2⟩ := run_steps_abort inputs [] k hk (by simpa using hfire)
  refine ⟨by omega, ?_⟩
  have hne : (run_steps inputs []).1 ≠ [] := detect_emergency_ne_nil h1
  unfold determine_safety_status
  simp only [List.isEmpty_iff]
  rw [if_neg hne, if_pos h1]

/-- Witness for `c8_emergency_aborts_script`: 「助けて」 is transcribed
during the second of the five scripted steps; the loop stops after two
steps and the conversation is classified `EMERGENCY`. -/
theorem c8_witness :
    ((([["元気です"], ["助けて"], ["はい"], ["はい"], ["はい"]] :
        List (List String)).length = conversation_step_count) ∧
     1 + 1 < conversation_step_count ∧
     detect_emergency ((([["元気です"], ["助けて"], ["はい"], ["はい"], ["はい"]] :
        List (List String)).take (1 + 1)).flatten) = true) ∧
    ((run_steps [["元気です"], ["助けて"], ["はい"], ["はい"], ["はい"]] []).2 <
        conversation_step_count ∧
     determine_safety_status
        (run_steps [["元気です"], ["助けて"], ["はい"], ["はい"], ["はい"]] []).1 =
       SafetyStatus.EMERGENCY) :=
  ⟨⟨by decide, by decide, by decide⟩,
   c8_emergency_aborts_script _ 1 (by decide) (by decide) (by decide)⟩

/-- C3 helper: a single handler invocation writes to the output stream
only while processing an `audio.delta` event whose suppressed flag is
clear, and what it writes is that event's own payload. -/
theorem step_render_from_current_delta (m : Machine) (te : TimedEvent)
    (t : Time) (p : String)
    (h : (t, Action.render p) ∈ (stepM m te).2) :
    te.ev = ApiEvent.audioDelta p ∧
    m.hs.suppress_audio_output = false := by
  cases hev : te.ev <;>
    simp only [stepM, handle_api_response, hev] at h ⊢
  case sessionCreated => simp at h
  case speechStarted => split_ifs at h <;> simp at h
  case speechStopped => simp at h
  case transcriptionCompleted t' => split_ifs at h <;> simp at h
  case transcriptionFailed =>
    simp only [generate_fallback_response] at h
    split_ifs at h <;> simp at h
  case audioDelta d =>
    split_ifs at h with hempty
    · simp at h
    · simp only [play_audio_delta] at h
      split_ifs at h with hsup hawait hawait <;> simp_all
  case audioTranscriptDelta t' => simp at h
  case responseCreated id => simp at h
  case responseDone => simp at h
  case apiError msg => simp at h

/-- C3: over every event sequence, each write to the audio output stream
originates from the very `audio.delta` event being processed, and only
when the suppressed flag was clear at that step.  Contrapositive
reading: a delta that arrives while the flag is set produces no render
during its own step, and no later step can render it either (there is no
buffering — renders come only from the current event). -/
theorem c3_suppressed_deltas_dropped_not_buffered
    (m : Machine) (es : List TimedEvent) (r : StepRecord)
    (hr : r ∈ traceM m es) (t : Time) (p : String)
    (hrend : (t, Action.render p) ∈ r.acts) :
    r.event.ev = ApiEvent.audioDelta p ∧
    r.pre.hs.suppress_audio_output = false := by
  induction es generalizing m with
  | nil => simp [traceM] at hr
  | cons te rest ih =>
    rw [traceM] at hr
    rcases List.mem_cons.mp hr with hEq | hTail
    · subst hEq
      exact step_render_from_current_delta m te t p hrend
    · exact ih _ hTail

/-- Machine state used by the C3 witness: initial handler fields, clock
at 0. -/
def c3m0 : Machine := { hs := initHandlerState, clock := 0 }

/-- Event sequence of the C3 witness: a turn is created, then one audio
delta arrives. -/
def c3events : List TimedEvent :=
  [{ arrival := 0, ev := ApiEvent.responseCreated (some "resp_1") },
   { arrival := 1, ev := ApiEvent.audioDelta "x" }]

/-- Trace record reached by the C3 witness: the delta is processed from
the streaming state, sleeps the speaking delay and renders at time 2. -/
def c3rec : StepRecord :=
  { pre :=
      { hs :=
          { response_in_progress := true
            awaiting_audio_delay := true
            response_cooldown_until := 0
            current_response_id := some "resp_1"
            suppress_audio_output := false
            last_speech_time := 0 }
        clock := 0 }
    event := { arrival := 1, ev := ApiEvent.audioDelta "x" }
    acts := [(1, Action.sleepFor 1), (2, Action.render "x")] }

/-- Witness for `c3_suppressed_deltas_dropped_not_buffered` on the
concrete two-event trace. -/
theorem c3_witness :
    (c3rec ∈ traceM c3m0 c3events ∧
     ((2 : Time), Action.render "x") ∈ c3rec.acts) ∧
    (c3rec.event.ev = ApiEvent.audioDelta "x" ∧
     c3rec.pre.hs.suppress_audio_output = false) :=
  ⟨⟨by
      have hx : ("x" : String).isEmpty = false := by decide
      norm_num [traceM, stepM, handle_api_response, play_audio_delta,
        initHandlerState, speak_delay_seconds, c3m0, c3events, c3rec, hx],
    by norm_num [c3rec]⟩,
   c3_suppressed_deltas_dropped_not_buffered c3m0 c3events c3rec
     (by
       have hx : ("x" : String).isEmpty = false := by decide
       norm_num [traceM, stepM, handle_api_response, play_audio_delta,
         initHandlerState, speak_delay_seconds, c3m0, c3events, c3rec, hx])
     2 "x" (by norm_num [c3rec])⟩

/-- C6: the scenario trace [session.created, response.created(resp_1),
audio.delta A, audio.delta B, response.done] from the initial state with
the default 1.0 s speaking delay.  Arrival order is monotone, B arrives
before A's speaking delay elapses, and the done event arrives after the
renders.  The effects are exactly: one 1.0 s sleep starting when A is
processed, render(A) at `t2 + 1` — at least 1.0 s after the
`response.created` processing time `t1` —, render(B) at the very same
instant with no further sleep, and after `response.done` the cooldown
window equals the done processing time `t4` plus 2.0 s. -/
theorem c6_scenario_delay_then_renders_then_cooldown
    (c0 t0 t1 t2 t3 t4 : Time) (A B : String)
    (hA : A.isEmpty = false) (hB : B.isEmpty = false)
    (hc : c0 ≤ t0) (h01 : t0 ≤ t1) (h12 : t1 ≤ t2)
    (h3 : t3 ≤ t2 + 1) (h4 : t2 + 1 ≤ t4) :
    (runM { hs := initHandlerState, clock := c0 }
        [{ arrival := t0, ev := ApiEvent.sessionCreated },
         { arrival := t1, ev := ApiEvent.responseCreated (some "resp_1") },
         { arrival := t2, ev := ApiEvent.audioDelta A },
         { arrival := t3, ev := ApiEvent.audioDelta B },
         { arrival := t4, ev := ApiEvent.responseDone }]).2 =
      [(t2, Action.sleepFor 1),
       (t2 + 1, Action.render A),
       (t2 + 1, Action.render B),
       (t4, Action.notifyResponseEnd)] ∧
    t1 + 1 ≤ t2 + 1 ∧
    (runM { hs := initHandlerState, clock := c0 }
        [{ arrival := t0, ev := ApiEvent.sessionCreated },
         { arrival := t1, ev := ApiEvent.responseCreated (some "resp_1") },
         { arrival := t2, ev := ApiEvent.audioDelta A },
         { arrival := t3, ev := ApiEvent.audioDelta B },
         { arrival := t4, ev := ApiEvent.responseDone }]).1.hs.response_cooldown_until =
      t4 + 2 := by
  refine ⟨?_, by linarith, ?_⟩ <;>
    simp only [runM, stepM, handle_api_response, play_audio_delta,
      initHandlerState, speak_delay_seconds, hA, hB,
      max_eq_right hc, max_eq_right h01, max_eq_right h12,
      max_eq_left h3, max_eq_right h4, Bool.false_eq_true, if_false, if_true,
      List.append_nil, List.nil_append, List.singleton_append] <;>
    rfl

/-- Witness for `c6_scenario_delay_then_renders_then_cooldown` with all
events arriving at time 0 except the done event at time 1. -/
theorem c6_witness :
    ((("a" : String).isEmpty = false ∧ ("b" : String).isEmpty = false) ∧
     ((0 : Time) ≤ 0 ∧ (0 : Time) ≤ 0 + 1 ∧ (0 : Time) + 1 ≤ 1)) ∧
    ((runM { hs := initHandlerState, clock := 0 }
        [{ arrival := 0, ev := ApiEvent.sessionCreated },
         { arrival := 0, ev := ApiEvent.responseCreated (some "resp_1") },
         { arrival := 0, ev := ApiEvent.audioDelta "a" },
         { arrival := 0, ev := ApiEvent.audioDelta "b" },
         { arrival := 1, ev := ApiEvent.responseDone }]).2 =
      [((0 : Time), Action.sleepFor 1),
       ((0 : Time) + 1, Action.render "a"),
       ((0 : Time) + 1, Action.render "b"),
       ((1 : Time), Action.notifyResponseEnd)] ∧
     (0 : Time) + 1 ≤ 0 + 1 ∧
     (runM { hs := initHandlerState, clock := 0 }
        [{ arrival := 0, ev := ApiEvent.sessionCreated },
         { arrival := 0, ev := ApiEvent.responseCreated (some "resp_1") },
         { arrival := 0, ev := ApiEvent.audioDelta "a" },
         { arrival := 0, ev := ApiEvent.audioDelta "b" },
         { arrival := 1, ev := ApiEvent.responseDone }]).1.hs.response_cooldown_until =
      (1 : Time) + 2) :=
  ⟨⟨⟨by decide, by decide⟩, ⟨le_refl 0, by norm_num, by norm_num⟩⟩,
   c6_scenario_delay_then_renders_then_cooldown 0 0 0 0 0 1 "a" "b"
     (by decide) (by decide) (le_refl 0) (le_refl 0) (le_refl 0)
     (by norm_num) (by norm_num)⟩

end RealtimeCare
